import Mathlib

/-!
Verification of the QARTOD threshold-generation drivers of
`ooi-data-explorations` (RCA branch) against their natural-language
specification.  The Python drivers under
`src/python/ooi_data_explorations/qartod/rca/` are embedded shallowly:
pure numeric code becomes functions over `ℚ`, `NaN`-masking becomes
`Option ℚ`, fallible calls become `Except`.  The estimator module
`ooi_data_explorations/qartod/qc_processing.py` is not present under
`src/`; the definitions taken from it are modelled from the spec and say
so in their doc comments.
-/

/-- Error taxonomy of the estimation layer (spec section 7). -/
inductive QcErr where
  | insufficientData
  | numericFit
  deriving DecidableEq, Repr

/-- Embedding of `numpy.arange(start, stop, step)` on naturals, as used by
`generate_qartod` in `qartod_rca_ctd.py` (lines 180-185) and
`qartod_rca_flort.py` (lines 166-171): the values `start + i*step` strictly
below `stop`. -/
def arange (start stop step : ℕ) : List ℕ :=
  (List.range ((stop - start + step - 1) / step)).map (fun i => start + i * step)

/-- The shallow-profiler (SF0) bin-edge list from `qartod_rca_ctd.py` lines
180-182: `np.concatenate((np.arange(6,105,1), np.arange(105,200,5)))`. -/
def sf0BinList : List ℕ := arange 6 105 1 ++ arange 105 200 5

/-- The consecutive-pair loop of `qartod_rca_ctd.py` lines 186-188:
`bins.append((binList[i], binList[i+1]))` for `i in range(0, len-1)`. -/
def consecPairs (l : List ℕ) : List (ℕ × ℕ) := l.zip l.tail

/-- The SF0 depth bins actually handed to the climatology loop. -/
def sf0Bins : List (ℕ × ℕ) := consecPairs sf0BinList

/-- The per-bin sample filter of `qartod_rca_ctd.py` line 191 and
`qartod_rca_phsen.py` line 146:
`(pressBin[0] < depth) & (depth < pressBin[1])`, strict on both sides. -/
def binSelect (lo hi d : ℚ) : Bool := decide (lo < d) && decide (d < hi)

/-- Boolean check that consecutive bins share an edge (upper of one equals
lower of the next). -/
def chainEdgesB : List (ℕ × ℕ) → Bool
  | [] => true
  | [_] => true
  | p :: q :: t => (p.2 == q.1) && chainEdgesB (q :: t)

theorem chainEdgesB_sound :
    ∀ l : List (ℕ × ℕ), chainEdgesB l = true →
      List.Chain' (fun p q : ℕ × ℕ => p.2 = q.1) l := by
  intro l
  induction l with
  | nil => intro _; exact List.chain'_nil
  | cons p t ih =>
    cases t with
    | nil => intro _; simp
    | cons q t' =>
      intro h
      rw [chainEdgesB, Bool.and_eq_true] at h
      exact List.chain'_cons.mpr ⟨beq_iff_eq.mp h.1, ih h.2⟩

/-- Coverage of a contiguous chain of bins: any point above the first lower
edge that is below some upper edge lies in one of the bins. -/
theorem binChainCovers (x : ℚ) :
    ∀ (b : ℕ × ℕ) (t : List (ℕ × ℕ)),
      List.Chain' (fun p q : ℕ × ℕ => p.2 = q.1) (b :: t) →
      (b.1 : ℚ) ≤ x → (∃ p ∈ b :: t, x ≤ (p.2 : ℚ)) →
      ∃ p ∈ b :: t, (p.1 : ℚ) ≤ x ∧ x ≤ (p.2 : ℚ) := by
  intro b t
  induction t generalizing b with
  | nil =>
    intro _ h1 h2
    obtain ⟨p, hp, hx⟩ := h2
    simp only [List.mem_singleton] at hp
    subst hp
    exact ⟨p, by simp, h1, hx⟩
  | cons c t ih =>
    intro hchain h1 h2
    by_cases hx : x ≤ (b.2 : ℚ)
    · exact ⟨b, by simp, h1, hx⟩
    · push_neg at hx
      have hbc : b.2 = c.1 := (List.chain'_cons.mp hchain).1
      have hc1 : (c.1 : ℚ) ≤ x := by
        rw [← hbc]; exact le_of_lt hx
      have h2' : ∃ p ∈ c :: t, x ≤ (p.2 : ℚ) := by
        obtain ⟨p, hp, hpx⟩ := h2
        rcases List.mem_cons.mp hp with hpb | hpm
        · subst hpb; exact absurd hpx (not_le.mpr hx)
        · exact ⟨p, hpm, hpx⟩
      obtain ⟨p, hp, hp1, hp2⟩ := ih c (List.chain'_cons.mp hchain).2 hc1 h2'
      exact ⟨p, List.mem_cons_of_mem b hp, hp1, hp2⟩

/-- C1 (amended).  The SF0 depth bins built by `generate_qartod` are
contiguous (each upper edge is the next lower edge), strictly ordered by
lower bound, non-degenerate, interiors pairwise disjoint, and together they
cover the depth range `[6, 195]` — the code's `np.arange(105, 200, 5)`
stops at 195, so the covered range ends at 195, not 200. -/
theorem sf0_depth_bins_partition :
    List.Chain' (fun p q : ℕ × ℕ => p.2 = q.1) sf0Bins ∧
    List.Pairwise (fun p q : ℕ × ℕ => p.1 < q.1) sf0Bins ∧
    (∀ p ∈ sf0Bins, p.1 < p.2) ∧
    List.Pairwise (fun p q : ℕ × ℕ =>
      ∀ x : ℚ, (p.1 : ℚ) < x → x < (p.2 : ℚ) →
        ¬((q.1 : ℚ) < x ∧ x < (q.2 : ℚ))) sf0Bins ∧
    (∀ x : ℚ, 6 ≤ x → x ≤ 195 →
      ∃ p ∈ sf0Bins, (p.1 : ℚ) ≤ x ∧ x ≤ (p.2 : ℚ)) := by
  refine ⟨chainEdgesB_sound sf0Bins (by decide), by decide, by decide, ?_, ?_⟩
  · have hord : List.Pairwise (fun p q : ℕ × ℕ => p.2 ≤ q.1) sf0Bins := by decide
    refine hord.imp ?_
    intro p q hpq x _ h2 hcon
    have hc : (p.2 : ℚ) ≤ (q.1 : ℚ) := by exact_mod_cast hpq
    linarith [hcon.1]
  · intro x hx1 hx2
    obtain ⟨b, t, hbt⟩ := List.exists_cons_of_ne_nil (l := sf0Bins) (by decide)
    have hhead : sf0Bins.head? = some (6, 7) := by decide
    have hb : b = (6, 7) := by
      rw [hbt] at hhead
      exact Option.some.inj hhead
    have hchain : List.Chain' (fun p q : ℕ × ℕ => p.2 = q.1) sf0Bins :=
      chainEdgesB_sound sf0Bins (by decide)
    have hmem : ((190 : ℕ), (195 : ℕ)) ∈ sf0Bins := by decide
    rw [hbt] at hchain hmem ⊢
    refine binChainCovers x b t hchain ?_ ⟨(190, 195), hmem, ?_⟩
    · rw [hb]; push_cast; linarith
    · push_cast; linarith

/-- Witness for C1: depth 100 is covered by an SF0 bin. -/
theorem sf0_depth_bins_partition_w :
    ∃ p ∈ sf0Bins, (p.1 : ℚ) ≤ 100 ∧ (100 : ℚ) ≤ (p.2 : ℚ) :=
  sf0_depth_bins_partition.2.2.2.2 100 (by norm_num) (by norm_num)

/-- Counterexample for C1 as stated: depth 196 lies in the requested range
`[6, 200)` but no SF0 bin reaches it — the last bin ends at 195 because
`np.arange(105, 200, 5)` excludes its stop value. -/
theorem sf0_bins_not_cover_200 :
    ((6 : ℚ) ≤ 196 ∧ (196 : ℚ) < 200) ∧
    ¬ ∃ p ∈ sf0Bins, (p.1 : ℚ) ≤ 196 ∧ (196 : ℚ) ≤ (p.2 : ℚ) := by
  refine ⟨⟨by norm_num, by norm_num⟩, ?_⟩
  rintro ⟨p, hp, -, h2⟩
  have hub : ∀ q ∈ sf0Bins, q.2 ≤ 195 := by decide
  have h195 : (p.2 : ℚ) ≤ 195 := by exact_mod_cast hub p hp
  linarith

/-- C5.  The per-bin filter used for the climatology fit selects a depth
iff it lies strictly between the bin edges; a depth exactly on the shared
edge of two adjacent bins is selected by neither. -/
theorem bin_filter_strict_boundaries :
    (∀ lo hi d : ℚ, binSelect lo hi d = true ↔ (lo < d ∧ d < hi)) ∧
    (∀ lo mid hi : ℚ,
      binSelect lo mid mid = false ∧ binSelect mid hi mid = false) := by
  constructor
  · intro lo hi d
    simp [binSelect]
  · intro lo mid hi
    constructor <;> simp [binSelect]

/-- Witness for C5: depth 105 on the edge shared by the SF0 bins
`(104, 105)` and `(105, 110)` is selected by neither, while 104.5 is
selected by the lower bin. -/
theorem bin_filter_strict_boundaries_w :
    (binSelect 104 105 105 = false ∧ binSelect 105 110 105 = false) ∧
    binSelect 104 105 (209/2) = true :=
  ⟨bin_filter_strict_boundaries.2 104 105 110,
   (bin_filter_strict_boundaries.1 104 105 (209/2)).mpr (by norm_num)⟩

/-- Mean of a list of rationals. -/
def qmean (l : List ℚ) : ℚ := l.sum / l.length

/-- Population variance of a list of rationals. -/
def qvar (l : List ℚ) : ℚ := ((l.map (fun v => (v - qmean l) ^ 2)).sum) / l.length

/-- The sensor-bound filter of the estimation layer: keep the values inside
the calibration bounds. -/
def boundsFilter (lo hi : ℚ) (vals : List ℚ) : List ℚ :=
  vals.filter (fun v => decide (lo ≤ v) && decide (v ≤ hi))

/-- Result record of the gross-range estimator: sensor bounds, and the
summary statistics from which the user bounds `mean ∓ k·std` are derived. -/
structure GrossRangeSpec where
  sensor_min : ℚ
  sensor_max : ℚ
  mean : ℚ
  k : ℚ
  variance : ℚ
  deriving DecidableEq, Repr

/-- The user minimum `mean − k·std` of a gross-range result, with
`std = √variance`. -/
noncomputable def GrossRangeSpec.userMin (g : GrossRangeSpec) : ℝ :=
  (g.mean : ℝ) - (g.k : ℝ) * Real.sqrt (g.variance : ℝ)

/-- The user maximum `mean + k·std` of a gross-range result, with
`std = √variance`. -/
noncomputable def GrossRangeSpec.userMax (g : GrossRangeSpec) : ℝ :=
  (g.mean : ℝ) + (g.k : ℝ) * Real.sqrt (g.variance : ℝ)

/-- Modelled from the spec: `process_gross_range` of
`ooi_data_explorations/qartod/qc_processing.py` is not under `src/`; spec
section 4.3 says it filters the values to the sensor bounds, fails with
`InsufficientDataError` when nothing remains, and otherwise returns user
bounds `mean ∓ k·std` over the filtered sequence with no clamping back into
the sensor bounds. -/
def process_gross_range (vals : List ℚ) (lo hi k : ℚ) : Except QcErr GrossRangeSpec :=
  if (boundsFilter lo hi vals).isEmpty then .error .insufficientData
  else .ok ⟨lo, hi, qmean (boundsFilter lo hi vals), k, qvar (boundsFilter lo hi vals)⟩

/-- The driver calls leave the multiplier at its default `k = 3`. -/
def process_gross_range_default (vals : List ℚ) (lo hi : ℚ) : Except QcErr GrossRangeSpec :=
  process_gross_range vals lo hi 3

/-- The climatology-table header built by `generate_qartod`
(`qartod_rca_ctd.py` lines 173-175, `qartod_rca_phsen.py` lines 139-141):
`clmHeader += ',[{}, {}]'.format(i, i)` for `i in range(1, 13)`. -/
def clmHeaderStr : String :=
  (List.range' 1 12 1).foldl
    (fun s i => s ++ ",[" ++ toString i ++ ", " ++ toString i ++ "]") ""

/-- One month cell `,[min, max]` of a climatology-table row. -/
def cellChars (p : ℚ × ℚ) : List Char :=
  (",[" ++ toString p.1 ++ ", " ++ toString p.2 ++ "]").data

/-- The twelve month cells of a climatology row, in calendar order, produced
by a fit function `fit` from the filtered series. -/
def monthCellList (fit : List (ℚ × ℚ) → Fin 12 → ℚ × ℚ)
    (f : List (ℚ × ℚ)) : List (List Char) :=
  (List.finRange 12).map (fun m => cellChars (fit f m))

/-- The sensor-bound filter applied by the climatology estimator to its
`(time, value)` series. -/
def pcFilter (lo hi : ℚ) (series : List (ℚ × ℚ)) : List (ℚ × ℚ) :=
  series.filter (fun p => decide (lo ≤ p.2) && decide (p.2 ≤ hi))

/-- The single data row of an unbinned climatology table: the `[0, 0]`
depth-bin marker followed by the twelve month cells. -/
def clmRow (fit : List (ℚ × ℚ) → Fin 12 → ℚ × ℚ) (f : List (ℚ × ℚ)) : List Char :=
  "[0, 0]".data ++ (monthCellList fit f).flatten

/-- A climatology table as text lines: the month header line and the single
unbinned data row. -/
structure ClmTable where
  headerLine : List Char
  row : List Char
  deriving DecidableEq, Repr

/-- Modelled from the spec: `process_climatology` of
`ooi_data_explorations/qartod/qc_processing.py` is not under `src/`; spec
section 4.4 says it filters by sensor bounds, fails with
`InsufficientDataError` when nothing remains, fits a harmonic regression and
emits one `[min, max]` cell per calendar month.  The harmonic fit itself is
abstracted as the parameter `fit`, since the claims hold for every fit. -/
def process_climatology (fit : List (ℚ × ℚ) → Fin 12 → ℚ × ℚ)
    (series : List (ℚ × ℚ)) (lo hi : ℚ) : Except QcErr ClmTable :=
  if (pcFilter lo hi series).isEmpty then .error .insufficientData
  else .ok ⟨clmHeaderStr.data, clmRow fit (pcFilter lo hi series)⟩

/-- C7.  For a non-empty sensor-bound-filtered value sequence the gross-range
estimator returns the statistics of that filtered sequence with the default
multiplier 3, so the user bounds are `mean ∓ 3·std`; the returned record is
fully determined by those statistics, with no clamping of the user bounds
into the sensor bounds. -/
theorem gross_range_mean_3std_unclamped :
    ∀ (vals : List ℚ) (lo hi : ℚ), boundsFilter lo hi vals ≠ [] →
      ∃ g, process_gross_range_default vals lo hi = .ok g ∧
        g.mean = qmean (boundsFilter lo hi vals) ∧
        g.variance = qvar (boundsFilter lo hi vals) ∧
        g.k = 3 ∧ g.sensor_min = lo ∧ g.sensor_max = hi ∧
        g.userMin = (g.mean : ℝ) - 3 * Real.sqrt (g.variance : ℝ) ∧
        g.userMax = (g.mean : ℝ) + 3 * Real.sqrt (g.variance : ℝ) := by
  intro vals lo hi hne
  refine ⟨⟨lo, hi, qmean (boundsFilter lo hi vals), 3, qvar (boundsFilter lo hi vals)⟩, ?_,
    rfl, rfl, rfl, rfl, rfl, ?_, ?_⟩
  · unfold process_gross_range_default process_gross_range
    rw [if_neg]
    simpa [List.isEmpty_iff] using hne
  · simp [GrossRangeSpec.userMin]
  · simp [GrossRangeSpec.userMax]

/-- Witness for C7: for the values `{0, 20}` inside sensor bounds `[0, 20]`
the mean is 10 and the variance 100, so the user maximum is
`10 + 3·10 = 40`, which exceeds the sensor maximum 20 and is not clamped. -/
theorem gross_range_mean_3std_unclamped_w :
    ∃ g, process_gross_range_default [0, 20] 0 20 = .ok g ∧
      g.userMax = 40 ∧ (20 : ℝ) < g.userMax := by
  obtain ⟨g, hok, hmean, hvar, hk, -, -, -, hmax⟩ :=
    gross_range_mean_3std_unclamped [0, 20] 0 20 (by decide)
  have hf : boundsFilter 0 20 [0, 20] = [0, 20] := by
    simp [boundsFilter]
  have hm : g.mean = 10 := by
    rw [hmean, hf]; simp [qmean]; norm_num
  have hv : g.variance = 100 := by
    rw [hvar, hf]; simp [qvar, qmean]; norm_num
  have hs : Real.sqrt ((g.variance : ℚ) : ℝ) = 10 := by
    rw [hv]
    rw [show (((100 : ℚ) : ℝ)) = (10 : ℝ) ^ 2 by norm_num]
    exact Real.sqrt_sq (by norm_num)
  have h40 : g.userMax = 40 := by
    rw [hmax, hs, hm]; norm_num
  exact ⟨g, hok, h40, by rw [h40]; norm_num⟩

/-- C9.  On an empty value sequence the gross-range estimator, and on an
empty series the climatology estimator, fail with `InsufficientDataError`
for every configuration of bounds, multiplier and fit; no numeric record is
returned in place of the failure. -/
theorem empty_input_insufficient_data :
    ∀ (lo hi k : ℚ) (fit : List (ℚ × ℚ) → Fin 12 → ℚ × ℚ),
      process_gross_range [] lo hi k = .error .insufficientData ∧
      process_climatology fit [] lo hi = .error .insufficientData := by
  intro lo hi k fit
  exact ⟨rfl, rfl⟩

/-- Witness for C9 at concrete bounds: the pH configuration. -/
theorem empty_input_insufficient_data_w :
    process_gross_range [] (69/10) 9 3 = .error .insufficientData ∧
    process_climatology (fun _ _ => (0, 0)) [] (69/10) 9 = .error .insufficientData :=
  empty_input_insufficient_data (69/10) 9 3 (fun _ _ => (0, 0))

/-- Epoch seconds of `2014-01-01T00:00:00` UTC, the fixed lower edge of the
time slice in all three drivers. -/
def t2014 : ℚ := 1388534400

/-- The end date of the slice: the UTC-converted `cut_off` argument when
supplied, otherwise the dataset's `time_coverage_end` attribute
(`qartod_rca_ctd.py` lines 138-147, `qartod_rca_phsen.py` lines 113-122). -/
def endOf (cutoff : Option ℚ) (covEnd : ℚ) : ℚ := cutoff.getD covEnd

/-- The membership test of the label slice
`sel(time=slice("2014-01-01T00:00:00", end_date))`, closed on both ends. -/
def inWindow (endD t : ℚ) : Bool := decide (t2014 ≤ t) && decide (t ≤ endD)

/-- One record of the combined RCA CTD dataset as seen by `generate_qartod`
in `qartod_rca_ctd.py`.  `rollup` carries the annotation rollup QC flag the
masking stage would attach to the sample; the CTD driver never computes or
consults it. -/
structure CtdSample where
  time : ℚ
  temp : Option ℚ
  sal : Option ℚ
  press : Option ℚ
  rollup : ℕ
  deriving DecidableEq, Repr

/-- `data.sortby('time')` for CTD records (`qartod_rca_ctd.py` line 149). -/
def timeSortCtd (l : List CtdSample) : List CtdSample :=
  List.insertionSort (fun a b : CtdSample => a.time ≤ b.time) l

/-- Lines 149-150 of `qartod_rca_ctd.py`: sort by time, then slice to the
closed window `[2014-01-01, end_date]`.  No annotation masking occurs. -/
def ctdWindowed (l : List CtdSample) (endD : ℚ) : List CtdSample :=
  (timeSortCtd l).filter (fun s => inWindow endD s.time)

/-- The temperature series the CTD driver hands to the estimators: the
values present in the windowed records. -/
def ctdTempSeries (l : List CtdSample) (endD : ℚ) : List ℚ :=
  (ctdWindowed l endD).filterMap (fun s => s.temp)

/-- Line 156 of `qartod_rca_ctd.py`: the gross-range call for temperature
with sensor bounds `[-5, 35]` on the windowed series. -/
def ctdGrossRangeTemp (l : List CtdSample) (cutoff : Option ℚ) (covEnd : ℚ) :
    Except QcErr GrossRangeSpec :=
  process_gross_range_default (ctdTempSeries l (endOf cutoff covEnd)) (-5) 35

/-- One record of the combined RCA PHSEN dataset as seen by
`generate_qartod` in `qartod_rca_phsen.py`: pH value, the pH quality flag
(line 85) and the annotation rollup flag (line 106). -/
structure PhSample where
  time : ℚ
  ph : ℚ
  phFlag : ℕ
  rollup : ℕ
  deriving DecidableEq, Repr

/-- Line 109 of `qartod_rca_phsen.py`:
`data.where((seawater_ph_quality_flag != 4) & (rollup_annotations_qc_results != 4))`
turns the pH value of every sample failing either check into `NaN`. -/
def phsenMask (s : PhSample) : Option ℚ :=
  if s.phFlag ≠ 4 ∧ s.rollup ≠ 4 then some s.ph else none

/-- `data.sortby('time')` for PHSEN records (line 124). -/
def timeSortPh (l : List PhSample) : List PhSample :=
  List.insertionSort (fun a b : PhSample => a.time ≤ b.time) l

/-- Lines 124-125 of `qartod_rca_phsen.py`: sort by time and slice to the
closed window; the mask of line 109 has already been applied pointwise. -/
def phsenWindowed (l : List PhSample) (endD : ℚ) : List PhSample :=
  (timeSortPh l).filter (fun s => inWindow endD s.time)

/-- The pH series the PHSEN driver hands to the estimators: the unmasked
(non-`NaN`) values of the windowed records. -/
def phsenSeries (l : List PhSample) (endD : ℚ) : List ℚ :=
  (phsenWindowed l endD).filterMap phsenMask

/-- Line 131 of `qartod_rca_phsen.py`: the gross-range call with sensor
bounds `[6.9, 9.0]` on the masked, windowed series. -/
def phsenGrossRange (l : List PhSample) (cutoff : Option ℚ) (covEnd : ℚ) :
    Except QcErr GrossRangeSpec :=
  process_gross_range_default (phsenSeries l (endOf cutoff covEnd)) (69/10) 9

/-- C2 (amended).  In the PHSEN driver the annotation mask is applied to the
series before any estimator consumes it: every value of the series handed to
the gross-range and climatology estimators comes from a sample whose rollup
annotation flag is not fail (4) and whose pH quality flag is not fail.  (The
CTD driver applies no such mask; see the counterexample.) -/
theorem phsen_mask_excludes_fail_rollup :
    (∀ (l : List PhSample) (endD : ℚ) (s : PhSample),
      s ∈ phsenWindowed l endD → (phsenMask s).isSome = true →
        s.phFlag ≠ 4 ∧ s.rollup ≠ 4) ∧
    (∀ (l : List PhSample) (endD : ℚ) (v : ℚ), v ∈ phsenSeries l endD →
      ∃ s ∈ phsenWindowed l endD,
        phsenMask s = some v ∧ s.rollup ≠ 4 ∧ s.phFlag ≠ 4) := by
  have hmask : ∀ s : PhSample, (phsenMask s).isSome = true →
      s.phFlag ≠ 4 ∧ s.rollup ≠ 4 := by
    intro s h
    by_cases hc : s.phFlag ≠ 4 ∧ s.rollup ≠ 4
    · exact hc
    · simp [phsenMask, hc] at h
  constructor
  · intro l endD s _ h
    exact hmask s h
  · intro l endD v hv
    obtain ⟨s, hs, hsome⟩ := List.mem_filterMap.mp hv
    have h := hmask s (by rw [hsome]; rfl)
    exact ⟨s, hs, hsome, h.2, h.1⟩

/-- Witness for C2: a clean sample's pH value reaches the estimator series
and is traced back to a sample with a passing rollup flag. -/
theorem phsen_mask_excludes_fail_rollup_w :
    (8 : ℚ) ∈ phsenSeries [⟨t2014, 8, 1, 1⟩] 1388534401 ∧
    ∃ s ∈ phsenWindowed [⟨t2014, 8, 1, 1⟩] 1388534401,
      phsenMask s = some 8 ∧ s.rollup ≠ 4 ∧ s.phFlag ≠ 4 := by
  have hv : (8 : ℚ) ∈ phsenSeries [⟨t2014, 8, 1, 1⟩] 1388534401 := by
    decide
  exact ⟨hv, phsen_mask_excludes_fail_rollup.2 _ _ 8 hv⟩

/-- A CTD sample carrying a fail (4) rollup annotation flag. -/
def ctdFailSample : CtdSample := ⟨t2014, some 10, some 30, some 50, 4⟩

/-- Counterexample for C2 as stated: in the CTD driver, `generate_qartod`
runs no block identification or annotation masking at all, so a sample
whose rollup annotation flag equals fail (4) still reaches the series the
gross-range estimator consumes, and its value alone determines the
computed limits. -/
theorem ctd_no_rollup_masking :
    ctdFailSample.rollup = 4 ∧
    ctdTempSeries [ctdFailSample] (endOf none 1388534401) = [10] ∧
    ctdGrossRangeTemp [ctdFailSample] none 1388534401 = .ok ⟨-5, 35, 10, 3, 0⟩ := by
  have hser : ctdTempSeries [ctdFailSample] (endOf none 1388534401) = [10] := by
    decide
  refine ⟨rfl, hser, ?_⟩
  rw [ctdGrossRangeTemp, hser]
  rw [process_gross_range_default, process_gross_range]
  rw [if_neg (by decide)]
  have hf : boundsFilter (-5) 35 [10] = [10] := by decide
  have hmean : qmean (boundsFilter (-5) 35 [10]) = 10 := by
    rw [hf]; simp [qmean]
  have hvar : qvar (boundsFilter (-5) 35 [10]) = 0 := by
    rw [hf]; simp [qvar, qmean]
  simp [hmean, hvar]

theorem qmean_perm {l₁ l₂ : List ℚ} (h : l₁.Perm l₂) : qmean l₁ = qmean l₂ := by
  unfold qmean
  rw [h.sum_eq, h.length_eq]

theorem qvar_perm {l₁ l₂ : List ℚ} (h : l₁.Perm l₂) : qvar l₁ = qvar l₂ := by
  unfold qvar
  rw [qmean_perm h, (h.map (fun v => (v - qmean l₂) ^ 2)).sum_eq, h.length_eq]

theorem isEmpty_eq_of_perm {α : Type} {l₁ l₂ : List α} (h : l₁.Perm l₂) :
    l₁.isEmpty = l₂.isEmpty := by
  cases l₁ with
  | nil =>
    rw [h.symm.eq_nil]
  | cons a t =>
    cases l₂ with
    | nil => exact absurd h.eq_nil (by simp)
    | cons b u => rfl

theorem process_gross_range_perm (lo hi k : ℚ) {l₁ l₂ : List ℚ} (h : l₁.Perm l₂) :
    process_gross_range l₁ lo hi k = process_gross_range l₂ lo hi k := by
  have hf : (boundsFilter lo hi l₁).Perm (boundsFilter lo hi l₂) := h.filter _
  have hemp : (boundsFilter lo hi l₁).isEmpty = (boundsFilter lo hi l₂).isEmpty :=
    isEmpty_eq_of_perm hf
  unfold process_gross_range
  rw [qmean_perm hf, qvar_perm hf, hemp]

theorem ctdWindowed_perm (l : List CtdSample) (endD : ℚ) :
    (ctdWindowed l endD).Perm (l.filter (fun s => inWindow endD s.time)) :=
  (List.perm_insertionSort _ l).filter _

theorem ctdWindowed_dropOutside (l : List CtdSample) (endD : ℚ) :
    (ctdWindowed l endD).Perm
      (ctdWindowed (l.filter (fun s => inWindow endD s.time)) endD) := by
  have h2 := ctdWindowed_perm (l.filter (fun s => inWindow endD s.time)) endD
  have hid : (l.filter (fun s => inWindow endD s.time)).filter
      (fun s => inWindow endD s.time) = l.filter (fun s => inWindow endD s.time) := by
    simp [List.filter_filter]
  rw [hid] at h2
  exact (ctdWindowed_perm l endD).trans h2.symm

theorem phsenWindowed_perm (l : List PhSample) (endD : ℚ) :
    (phsenWindowed l endD).Perm (l.filter (fun s => inWindow endD s.time)) :=
  (List.perm_insertionSort _ l).filter _

theorem phsenWindowed_dropOutside (l : List PhSample) (endD : ℚ) :
    (phsenWindowed l endD).Perm
      (phsenWindowed (l.filter (fun s => inWindow endD s.time)) endD) := by
  have h2 := phsenWindowed_perm (l.filter (fun s => inWindow endD s.time)) endD
  have hid : (l.filter (fun s => inWindow endD s.time)).filter
      (fun s => inWindow endD s.time) = l.filter (fun s => inWindow endD s.time) := by
    simp [List.filter_filter]
  rw [hid] at h2
  exact (phsenWindowed_perm l endD).trans h2.symm

/-- C10 (amended).  In the CTD and PHSEN drivers every sample of the series
handed to the estimators lies in the closed window from 2014-01-01 to the
end date (the `cut_off` argument when supplied, otherwise
`time_coverage_end`), and the gross-range result is unchanged when the
out-of-window samples are removed from the input — so out-of-window samples
never influence the gross-range or climatology records.  (They do influence
the annotation records; see the counterexample.) -/
theorem estimator_series_time_window :
    (∀ (l : List CtdSample) (cutoff : Option ℚ) (covEnd : ℚ) (s : CtdSample),
      s ∈ ctdWindowed l (endOf cutoff covEnd) →
        t2014 ≤ s.time ∧ s.time ≤ endOf cutoff covEnd) ∧
    (∀ (l : List PhSample) (cutoff : Option ℚ) (covEnd : ℚ) (s : PhSample),
      s ∈ phsenWindowed l (endOf cutoff covEnd) →
        t2014 ≤ s.time ∧ s.time ≤ endOf cutoff covEnd) ∧
    (∀ (l : List CtdSample) (cutoff : Option ℚ) (covEnd : ℚ),
      ctdGrossRangeTemp l cutoff covEnd =
        ctdGrossRangeTemp
          (l.filter (fun s => inWindow (endOf cutoff covEnd) s.time)) cutoff covEnd) ∧
    (∀ (l : List PhSample) (cutoff : Option ℚ) (covEnd : ℚ),
      phsenGrossRange l cutoff covEnd =
        phsenGrossRange
          (l.filter (fun s => inWindow (endOf cutoff covEnd) s.time)) cutoff covEnd) := by
  refine ⟨?_, ?_, ?_, ?_⟩
  · intro l cutoff covEnd s hs
    have := (List.mem_filter.mp hs).2
    simpa [inWindow] using this
  · intro l cutoff covEnd s hs
    have := (List.mem_filter.mp hs).2
    simpa [inWindow] using this
  · intro l cutoff covEnd
    have hperm := (ctdWindowed_dropOutside l (endOf cutoff covEnd)).filterMap
      (fun s : CtdSample => s.temp)
    exact process_gross_range_perm (-5) 35 3 hperm
  · intro l cutoff covEnd
    have hperm := (phsenWindowed_dropOutside l (endOf cutoff covEnd)).filterMap phsenMask
    exact process_gross_range_perm (69/10) 9 3 hperm

/-- Witness for C10: a concrete windowed sample satisfies the window bounds,
and dropping out-of-window samples leaves a concrete gross-range result
unchanged. -/
theorem estimator_series_time_window_w :
    (t2014 ≤ (1388534400 : ℚ) ∧ (1388534400 : ℚ) ≤ endOf (some 1388534401) 9) ∧
    ctdGrossRangeTemp [⟨1388534400, some 10, none, none, 1⟩] (some 1388534401) 9 =
      ctdGrossRangeTemp
        (([⟨1388534400, some 10, none, none, 1⟩] :
            List CtdSample).filter
          (fun s => inWindow (endOf (some 1388534401) 9) s.time))
        (some 1388534401) 9 := by
  constructor
  · exact estimator_series_time_window.1 [⟨1388534400, some 10, none, none, 1⟩]
      (some 1388534401) 9 ⟨1388534400, some 10, none, none, 1⟩ (by decide)
  · exact estimator_series_time_window.2.2.1 [⟨1388534400, some 10, none, none, 1⟩]
      (some 1388534401) 9

/-- Close a candidate block: emit it only when its span `end − start + 1`
reaches the minimum duration. -/
def ibClose (minDur : ℕ) (c : ℕ × ℕ) : List (ℕ × ℕ) :=
  if minDur ≤ c.2 - c.1 + 1 then [c] else []

/-- Single left-to-right walk of the fail sequence carrying the current
candidate block, bridging non-fail gaps of length at most `maxGap`. -/
def ibGo (maxGap minDur : ℕ) : ℕ → Option (ℕ × ℕ) → List Bool → List (ℕ × ℕ)
  | _, none, [] => []
  | _, some c, [] => ibClose minDur c
  | i, none, b :: rest =>
      if b then ibGo maxGap minDur (i + 1) (some (i, i)) rest
      else ibGo maxGap minDur (i + 1) none rest
  | i, some c, b :: rest =>
      if b then
        if i - c.2 ≤ maxGap + 1 then ibGo maxGap minDur (i + 1) (some (c.1, i)) rest
        else ibClose minDur c ++ ibGo maxGap minDur (i + 1) (some (i, i)) rest
      else ibGo maxGap minDur (i + 1) (some c) rest

/-- Modelled from the spec: `identify_blocks` of
`ooi_data_explorations/qartod/qc_processing.py` is not under `src/`; spec
section 4.1 describes a single walk over the boolean fail sequence that
starts a candidate block at a fail, bridges non-fail gaps of length at most
`maxGap`, and emits blocks whose span is at least `minDur`. -/
def identify_blocks (fail : List Bool) (maxGap minDur : ℕ) : List (ℕ × ℕ) :=
  ibGo maxGap minDur 0 none fail

/-- The literal block-identification example of spec section 8: with
`max_gap = 1` and `min_duration = 5`, the two short fail runs at `[5,7]` and
`[9,11]` merge across the single pass at index 8 into one block `[5,11]`,
and the long run `[14,83]` is kept on its own. -/
theorem identify_blocks_spec_example :
    identify_blocks
      (List.replicate 5 false ++ List.replicate 3 true ++ [false] ++
        List.replicate 3 true ++ List.replicate 2 false ++
        List.replicate 70 true ++ [false]) 1 5 = [(5, 11), (14, 83)] := by
  decide

/-- One annotation record, as assembled by the PHSEN/FLORT drivers:
identity columns, the covered time interval, the QC flag and the source
note. -/
structure AnnRecord where
  subsite : String
  node : String
  sensor : String
  beginT : ℚ
  endT : ℚ
  qcFlag : ℕ
  source : String
  deriving DecidableEq, Repr

/-- Modelled from the spec: `create_annotations` of
`ooi_data_explorations/qartod/qc_processing.py` is not under `src/`; spec
section 4.2 says each failure block becomes one record with `qcFlag` fixed
to fail (4) and a generated HITL source note, covering the block's time
interval. -/
def create_annotations (site node sensor : String) (times : List ℚ)
    (blocks : List (ℕ × ℕ)) : List AnnRecord :=
  blocks.map (fun b => ⟨site, node, sensor, times.getD b.1 0, times.getD b.2 0, 4, "HITL"⟩)

/-- Line 90 of `qartod_rca_phsen.py`: the boolean fail sequence
`seawater_ph_quality_flag == 4`. -/
def phsenFailFlags (l : List PhSample) : List Bool := l.map (fun s => s.phFlag == 4)

/-- Lines 90-92 of `qartod_rca_phsen.py`: block identification with
`[max_gap, min_duration] = [24, 24]` over the full (unwindowed) series,
then HITL annotation generation.  This runs before the time slice of line
125. -/
def phsenHitl (site node sensor : String) (l : List PhSample) : List AnnRecord :=
  create_annotations site node sensor (l.map (fun s => s.time))
    (identify_blocks (phsenFailFlags l) 24 24)

/-- Line 103 of `qartod_rca_phsen.py` (and line 107 of
`qartod_rca_flort.py`): `annotations.append(pd.DataFrame(hitl),
ignore_index=True)` — the historical records followed by the HITL records. -/
def assembleAnns (hist hitl : List AnnRecord) : List AnnRecord := hist ++ hitl

/-- C8.  The assembled annotation set is exactly the externally retrieved
historical set followed by the builder-generated HITL set: every record of
both inputs is preserved with its multiplicity (no de-duplication or
conflict resolution), in that order. -/
theorem assembled_anns_concat :
    ∀ hist hitl : List AnnRecord,
      assembleAnns hist hitl = hist ++ hitl ∧
      (assembleAnns hist hitl).length = hist.length + hitl.length ∧
      (∀ a : AnnRecord,
        (assembleAnns hist hitl).count a = hist.count a + hitl.count a) ∧
      (∀ i : ℕ, i < hist.length →
        (assembleAnns hist hitl)[i]? = hist[i]?) := by
  intro hist hitl
  refine ⟨rfl, by simp [assembleAnns], ?_, ?_⟩
  · intro a
    simp [assembleAnns, List.count_append]
  · intro i h
    simp only [assembleAnns]
    exact List.getElem?_append_left h

/-- Witness for C8 at concrete inputs: one historical and one HITL record,
including a duplicate check. -/
theorem assembled_anns_concat_w :
    assembleAnns [⟨"a", "b", "c", 1, 2, 3, "sys"⟩] [⟨"a", "b", "c", 1, 2, 3, "sys"⟩] =
      [⟨"a", "b", "c", 1, 2, 3, "sys"⟩, ⟨"a", "b", "c", 1, 2, 3, "sys"⟩] ∧
    (assembleAnns [⟨"a", "b", "c", 1, 2, 3, "sys"⟩]
        [⟨"a", "b", "c", 1, 2, 3, "sys"⟩]).count ⟨"a", "b", "c", 1, 2, 3, "sys"⟩ = 2 := by
  have h := assembled_anns_concat [⟨"a", "b", "c", 1, 2, 3, "sys"⟩]
    [⟨"a", "b", "c", 1, 2, 3, "sys"⟩]
  refine ⟨h.1, ?_⟩
  rw [h.2.2.1 ⟨"a", "b", "c", 1, 2, 3, "sys"⟩]
  decide

/-- Twenty-four consecutive fail samples, all after the window end used in
the counterexample below. -/
def phsenLateFails : List PhSample :=
  (List.range 24).map (fun i => ⟨((1388535000 + i : ℕ) : ℚ), 8, 4, 1⟩)

/-- Counterexample for C10 as stated: samples outside the time window do
influence an output record.  The HITL annotations are generated from the
full series before the time slice, so twenty-four fail samples lying
entirely after the window end still produce an annotation record, which
disappears when the out-of-window samples are removed. -/
theorem phsen_hitl_sees_unwindowed_samples :
    (∀ s ∈ phsenLateFails, inWindow 1388534500 s.time = false) ∧
    phsenHitl "s" "n" "sn" phsenLateFails =
      [⟨"s", "n", "sn", 1388535000, 1388535023, 4, "HITL"⟩] ∧
    phsenHitl "s" "n" "sn"
      (phsenLateFails.filter (fun s => inWindow 1388534500 s.time)) = [] := by
  refine ⟨by decide, by decide, by decide⟩

/-- The anchored substitution `re.sub('^\[0, 0\]', '[lo, hi]', line)` of
`qartod_rca_ctd.py` lines 204/221 and `qartod_rca_phsen.py` line 149: when
the line starts with the six characters `[0, 0]`, replace them with the
bracketed depth bin. -/
def subPrefix00 (lo hi : ℕ) (line : List Char) : List Char :=
  if line.take 6 = "[0, 0]".data then
    ("[" ++ toString lo ++ ", " ++ toString hi ++ "]").data ++ line.drop 6
  else line

/-- Counterexample for C6 as stated: the header the drivers build is not the
claimed `,[1,1],...,[12,12]` — the format string `',[{}, {}]'` puts a space
after each comma. -/
theorem clm_header_not_unspaced :
    clmHeaderStr ≠
      ",[1,1],[2,2],[3,3],[4,4],[5,5],[6,6],[7,7],[8,8],[9,9],[10,10],[11,11],[12,12]" := by
  decide

/-- C6 (amended).  Every emitted climatology table starts with the header
row `,[1, 1],[2, 2],...,[12, 12]` (a space after each comma), and every data
row begins with the depth-bin interval `[lo, hi]` (or `[0, 0]` when
unbinned) followed by exactly twelve `[min, max]` month cells in calendar
order. -/
theorem clm_table_layout :
    clmHeaderStr =
      ",[1, 1],[2, 2],[3, 3],[4, 4],[5, 5],[6, 6],[7, 7],[8, 8],[9, 9],[10, 10],[11, 11],[12, 12]" ∧
    (∀ (fit : List (ℚ × ℚ) → Fin 12 → ℚ × ℚ) (f : List (ℚ × ℚ)),
      clmRow fit f = "[0, 0]".data ++ (monthCellList fit f).flatten ∧
      (monthCellList fit f).length = 12) ∧
    (∀ (fit : List (ℚ × ℚ) → Fin 12 → ℚ × ℚ) (f : List (ℚ × ℚ)) (lo hi : ℕ),
      subPrefix00 lo hi (clmRow fit f) =
        ("[" ++ toString lo ++ ", " ++ toString hi ++ "]").data ++
          (monthCellList fit f).flatten) ∧
    (∀ (fit : List (ℚ × ℚ) → Fin 12 → ℚ × ℚ) (series : List (ℚ × ℚ))
        (lo hi : ℚ) (tbl : ClmTable),
      process_climatology fit series lo hi = .ok tbl →
        tbl.headerLine = clmHeaderStr.data ∧
        tbl.row = clmRow fit (pcFilter lo hi series)) := by
  refine ⟨by decide, ?_, ?_, ?_⟩
  · intro fit f
    exact ⟨rfl, by simp [monthCellList]⟩
  · intro fit f lo hi
    rfl
  · intro fit series lo hi tbl h
    unfold process_climatology at h
    by_cases hc : (pcFilter lo hi series).isEmpty
    · rw [if_pos hc] at h
      exact absurd h (by simp)
    · rw [if_neg hc] at h
      have := Except.ok.inj h
      rw [← this]
      exact ⟨rfl, rfl⟩

/-- Witness for C6: a concrete one-sample table is accepted and has the
stated header and row layout. -/
theorem clm_table_layout_w :
    (⟨clmHeaderStr.data,
        clmRow (fun _ _ => ((0 : ℚ), (0 : ℚ))) (pcFilter 0 9 [(0, 7)])⟩ : ClmTable).headerLine =
      clmHeaderStr.data ∧
    (⟨clmHeaderStr.data,
        clmRow (fun _ _ => ((0 : ℚ), (0 : ℚ))) (pcFilter 0 9 [(0, 7)])⟩ : ClmTable).row =
      clmRow (fun _ _ => ((0 : ℚ), (0 : ℚ))) (pcFilter 0 9 [(0, 7)]) :=
  clm_table_layout.2.2.2 (fun _ _ => ((0 : ℚ), (0 : ℚ))) [(0, 7)] 0 9
    ⟨clmHeaderStr.data, clmRow (fun _ _ => ((0 : ℚ), (0 : ℚ))) (pcFilter 0 9 [(0, 7)])⟩ rfl

/-- The in-bin temperature series of `qartod_rca_ctd.py` line 191: apply the
strict depth-bin mask to the windowed data; rows whose pressure or
temperature is missing contribute nothing. -/
def ctdBinTempSeries (b : ℕ × ℕ) (samples : List CtdSample) : List (ℚ × ℚ) :=
  samples.filterMap (fun s =>
    match s.press, s.temp with
    | some p, some v => if binSelect (b.1 : ℚ) (b.2 : ℚ) p then some (s.time, v) else none
    | _, _ => none)

/-- Line 196 of `qartod_rca_ctd.py`: keep the in-bin temperatures strictly
inside the sensor bounds `(-5, 35)`. -/
def ctdBinTempFiltered (b : ℕ × ℕ) (samples : List CtdSample) : List (ℚ × ℚ) :=
  (ctdBinTempSeries b samples).filter (fun pv => binSelect (-5) 35 pv.2)

/-- The two guards of lines 193 and 197 of `qartod_rca_ctd.py`: a bin
qualifies when it has temperature data and some of it is inside the sensor
range. -/
def ctdBinQualifies (b : ℕ × ℕ) (samples : List CtdSample) : Bool :=
  !(ctdBinTempSeries b samples).isEmpty && !(ctdBinTempFiltered b samples).isEmpty

/-- The table row emitted for a qualifying bin (lines 200-205 of
`qartod_rca_ctd.py`): the climatology row with its `[0, 0]` marker replaced
by the depth bin. -/
def ctdBinRow (fit : List (ℚ × ℚ) → Fin 12 → ℚ × ℚ) (b : ℕ × ℕ)
    (samples : List CtdSample) : List Char :=
  subPrefix00 b.1 b.2 (clmRow fit (pcFilter (-5) 35 (ctdBinTempFiltered b samples)))

/-- The per-bin temperature loop of `qartod_rca_ctd.py` lines 189-208: bins
whose series is empty or entirely out of sensor range are skipped with a
printed warning; the others call `process_climatology` and append a row. -/
def ctdClmLoop (fit : List (ℚ × ℚ) → Fin 12 → ℚ × ℚ) (samples : List CtdSample) :
    List (ℕ × ℕ) → Except QcErr (List (List Char))
  | [] => .ok []
  | b :: rest =>
    if (ctdBinTempSeries b samples).isEmpty then ctdClmLoop fit samples rest
    else if (ctdBinTempFiltered b samples).isEmpty then ctdClmLoop fit samples rest
    else
      match process_climatology fit (ctdBinTempFiltered b samples) (-5) 35 with
      | .error e => .error e
      | .ok tbl =>
        match ctdClmLoop fit samples rest with
        | .error e => .error e
        | .ok rows => .ok (subPrefix00 b.1 b.2 tbl.row :: rows)

/-- C4 (amended).  In the CTD driver's depth-binned climatology loop, every
bin with no qualifying samples, or whose samples are all outside the sensor
bounds, is skipped and omitted from the output, and the loop never fails:
the result is exactly one row per qualifying bin, in bin order. -/
theorem ctd_bins_skip_and_continue :
    ∀ (fit : List (ℚ × ℚ) → Fin 12 → ℚ × ℚ) (samples : List CtdSample)
      (bins : List (ℕ × ℕ)),
      ctdClmLoop fit samples bins =
        .ok ((bins.filter (fun b => ctdBinQualifies b samples)).map
          (fun b => ctdBinRow fit b samples)) := by
  intro fit samples bins
  induction bins with
  | nil => rfl
  | cons b rest ih =>
    show ctdClmLoop fit samples (b :: rest) = _
    rw [ctdClmLoop]
    by_cases h1 : (ctdBinTempSeries b samples).isEmpty
    · rw [if_pos h1, ih]
      simp [List.filter_cons, ctdBinQualifies, h1]
    · rw [if_neg h1]
      by_cases h2 : (ctdBinTempFiltered b samples).isEmpty
      · rw [if_pos h2, ih]
        simp [List.filter_cons, ctdBinQualifies, h1, h2]
      · rw [if_neg h2]
        have hid : pcFilter (-5) 35 (ctdBinTempFiltered b samples) =
            ctdBinTempFiltered b samples := by
          apply List.filter_eq_self.mpr
          intro pv hpv
          have hsel := (List.mem_filter.mp hpv).2
          rw [binSelect, Bool.and_eq_true] at hsel
          rw [Bool.and_eq_true]
          exact ⟨decide_eq_true (le_of_lt (of_decide_eq_true hsel.1)),
                 decide_eq_true (le_of_lt (of_decide_eq_true hsel.2))⟩
        have hpc : process_climatology fit (ctdBinTempFiltered b samples) (-5) 35 =
            .ok ⟨clmHeaderStr.data,
              clmRow fit (pcFilter (-5) 35 (ctdBinTempFiltered b samples))⟩ := by
          unfold process_climatology
          rw [if_neg]
          rw [hid]
          exact h2
        rw [hpc, ih]
        simp [List.filter_cons, ctdBinQualifies, h1, h2, ctdBinRow]

/-- Witness for C4: on a concrete one-sample dataset the loop over the bins
`(6,7)` (which qualifies) and `(8,9)` (empty, skipped) succeeds with exactly
one row. -/
theorem ctd_bins_skip_and_continue_w :
    ctdClmLoop (fun _ _ => ((0 : ℚ), (0 : ℚ)))
        [⟨1388534400, some 10, none, some (13/2), 1⟩] [(6, 7), (8, 9)] =
      .ok ((([(6, 7), (8, 9)] : List (ℕ × ℕ)).filter
          (fun b => ctdBinQualifies b [⟨1388534400, some 10, none, some (13/2), 1⟩])).map
        (fun b => ctdBinRow (fun _ _ => ((0 : ℚ), (0 : ℚ))) b
          [⟨1388534400, some 10, none, some (13/2), 1⟩])) :=
  ctd_bins_skip_and_continue (fun _ _ => ((0 : ℚ), (0 : ℚ)))
    [⟨1388534400, some 10, none, some (13/2), 1⟩] [(6, 7), (8, 9)]

/-- One record of the PHSEN profiler data at line 146 of
`qartod_rca_phsen.py`: pH value (possibly `NaN` after the masking) and the
interpolated CTD pressure. -/
structure PhProfSample where
  time : ℚ
  ph : Option ℚ
  press : Option ℚ
  deriving DecidableEq, Repr

/-- The fixed pH profiler bins of `qartod_rca_phsen.py` line 144, matching
the stepped downcast pressure stops. -/
def phsenBins : List (ℕ × ℕ) :=
  [(15, 25), (25, 35), (35, 45), (45, 55), (55, 65), (65, 75), (75, 85),
   (85, 95), (95, 105), (105, 115), (115, 150), (150, 195)]

/-- The in-bin pH series of `qartod_rca_phsen.py` line 146. -/
def phsenBinSeries (b : ℕ × ℕ) (samples : List PhProfSample) : List (ℚ × ℚ) :=
  samples.filterMap (fun s =>
    match s.press, s.ph with
    | some p, some v => if binSelect (b.1 : ℚ) (b.2 : ℚ) p then some (s.time, v) else none
    | _, _ => none)

/-- The per-bin loop of `qartod_rca_phsen.py` lines 145-150: unlike the CTD
loop it calls `process_climatology` unconditionally, with no guard for
empty bins. -/
def phsenClmLoop (fit : List (ℚ × ℚ) → Fin 12 → ℚ × ℚ) (samples : List PhProfSample) :
    List (ℕ × ℕ) → Except QcErr (List (List Char))
  | [] => .ok []
  | b :: rest =>
    match process_climatology fit (phsenBinSeries b samples) (69/10) 9 with
    | .error e => .error e
    | .ok tbl =>
      match phsenClmLoop fit samples rest with
      | .error e => .error e
      | .ok rows => .ok (subPrefix00 b.1 b.2 tbl.row :: rows)

/-- Counterexample for C4 as stated: in the PHSEN profiler loop a depth bin
with zero qualifying samples makes the whole computation fail.  A dataset
with one sample at 100 dbar leaves the first bin `(15, 25)` empty, so the
loop fails with `InsufficientDataError` even though the bin `(95, 105)` has
data. -/
theorem phsen_empty_bin_fails_loop :
    phsenBinSeries (15, 25) [⟨1388534400, some 8, some 100⟩] = [] ∧
    phsenBinSeries (95, 105) [⟨1388534400, some 8, some 100⟩] = [(1388534400, 8)] ∧
    phsenClmLoop (fun _ _ => ((0 : ℚ), (0 : ℚ))) [⟨1388534400, some 8, some 100⟩]
      phsenBins = .error .insufficientData := by
  refine ⟨by decide, by decide, rfl⟩

/-- Python-surface errors of the FLORT driver. -/
inductive PyErr where
  | nameError (n : String)
  | unterminatedString
  deriving DecidableEq, Repr

/-- A minimal scanner for double-quoted Python string literals: state 0 is
code, state 1 is inside a single-line `"` string (a newline or end of input
before the closing quote is an error), state 2 is inside a `\x22\x22\x22`
triple-quoted string. -/
def pyScan : ℕ → List Char → Except PyErr Unit
  | 0, [] => .ok ()
  | 0, '"' :: '"' :: '"' :: rest => pyScan 2 rest
  | 0, '"' :: rest => pyScan 1 rest
  | 0, _ :: rest => pyScan 0 rest
  | 1, [] => .error .unterminatedString
  | 1, '"' :: rest => pyScan 0 rest
  | 1, '\n' :: _ => .error .unterminatedString
  | 1, _ :: rest => pyScan 1 rest
  | 2, [] => .error .unterminatedString
  | 2, '"' :: '"' :: '"' :: rest => pyScan 0 rest
  | 2, _ :: rest => pyScan 2 rest
  | _ + 3, _ => .ok ()

/-- Lines 11-17 of `src/python/ooi_data_explorations/cabled/process_flort.py`,
verbatim: the docstring of `flort_dropVars` is closed by four quote
characters, so after the triple quote closes, a fourth `"` opens a string
that the line never terminates. -/
def flortDropVarsSrc : String :=
  "def flort_dropVars(ds):\n    \"\"\"\n    Drop unused variables from dataset\n    param ds: initial FLORT dataset\n    return: reduced dataset\n    \"\"\"\"\n    # unused variables in streamed FLORT datastream:\n"

/-- The names defined or imported at module level in `qartod_rca_flort.py`
(lines 10-21 and the three `def`s): neither `index` nor `np` is among
them. -/
def flortModuleNames : List String :=
  ["argparse", "parser", "os", "pd", "pytz", "re", "sys",
   "get_annotations", "get_vocabulary", "load_gc_thredds", "add_annotation_qc_flags",
   "flort_streamed", "identify_blocks", "create_annotations", "process_gross_range",
   "process_climatology", "ANNO_HEADER", "CLM_HEADER", "GR_HEADER",
   "inputs", "generate_qartod", "main"]

/-- The names in scope inside `generate_qartod` when line 78 evaluates
`chl_fail[::index]`: the five parameters, the locals `data` and `chl_fail`
assigned on lines 70-77, and the module-level names. -/
def flortEnvAt78 : List String :=
  ["site", "node", "sensor", "cut_off", "platform", "data", "chl_fail"] ++
    flortModuleNames

/-- Python name resolution: a name not bound in the environment raises
`NameError`. -/
def resolveName (env : List String) (n : String) : Except PyErr Unit :=
  if n ∈ env then .ok () else .error (.nameError n)

/-- The FLORT `generate_qartod` up to its first outputs: line 78 evaluates
the subscript stride `index` before any lookup table or annotation output
exists, and line 115 would later evaluate `np.nan`; neither name is
defined.  The function can therefore only propagate an error. -/
def flort_generate_qartod (_data : List ℚ) : Except PyErr Unit := do
  let _ ← resolveName flortEnvAt78 "index"
  let _ ← resolveName ("blocks" :: "chl_hitl" :: flortEnvAt78) "np"
  pure ()

/-- C3.  For every input the FLORT driver raises before producing any
output: inside `generate_qartod` the names `index` (line 78) and `np`
(line 115) are unbound, so evaluation stops with a `NameError` at line 78;
moreover the module's own import of `process_flort` fails, because the
docstring delimiter of `flort_dropVars` leaves an unterminated string. -/
theorem flort_driver_always_errors :
    (∀ data : List ℚ, flort_generate_qartod data = .error (.nameError "index")) ∧
    ("index" ∉ flortEnvAt78 ∧ "np" ∉ flortEnvAt78) ∧
    pyScan 0 flortDropVarsSrc.data = .error .unterminatedString := by
  refine ⟨fun _ => rfl, ⟨by decide, by decide⟩, by rfl⟩
